import Mathlib

/-!
Shallow embedding of the slappd check-in synchronizer (src/slappd.py).

Modelling conventions:
- Check-in ids are `Nat`. The Python code stores the cursor as `str(id)`;
  since `str` is injective on ids and the only use of the raw value is the
  `prev_last_checkin == 0` absence test, the cursor map is modelled as a
  map to `Nat` with `Option` capturing absence.
- The `LAST_CHECKIN` dict is modelled as an association list with
  first-match lookup; assignment conses a new binding, which is
  observationally the same through `mapGet`.
- The fetch never issues its request: the URL format string at
  src/slappd.py lines 82-83 contains six positional fields while only five
  arguments are supplied at lines 84-89 (`UNTAPPD_API_BASE`, defined at
  line 45 and never used, is plainly the missing first argument), so
  `str.format` raises `IndexError` before the `try` block at line 90.
  `fetch_untappd_activity` therefore returns that error unconditionally;
  its timeout and connection-error handlers, and the 200/rate-limit
  branches of `process_user_checkins`, are dead code in the source and are
  still translated faithfully below.
- `slack_message` is split into its pure payload construction and the
  outcome of `requests.post`.
- Python exceptions are the `Exc` type: `runtimeError` stands for any
  `Exception`-derived value (`IndexError`, `RuntimeError`; caught by
  `except Exception`), `systemExit` for `SystemExit` raised by `sys.exit`
  (not `Exception`-derived, so it escapes `except Exception`). Fallible
  code returns `Except Exc`.
- `log` lines are modelled without their wall-clock timestamp prefix.
- The numeric rating is modelled as `Nat` (0 meaning no rating, matching
  the truthiness test `int(checkin['rating_score'])`).
-/

structure UserInfo where
  user_name : String
  first_name : String
  last_name : String
  user_avatar : String
deriving DecidableEq

structure Beer where
  bid : Nat
  beer_name : String
  beer_label : String
deriving DecidableEq

structure Brewery where
  brewery_id : Nat
  brewery_name : String
  brewery_slug : String
deriving DecidableEq

structure Venue where
  venue_id : Nat
  venue_name : String
  venue_slug : String
deriving DecidableEq

structure Badge where
  badge_name : String
  badge_description : String
  badge_image_sm : String
  badge_image_md : String
deriving DecidableEq

structure Checkin where
  checkin_id : Nat
  user : UserInfo
  beer : Beer
  brewery : Brewery
  venue : Option Venue
  rating_score : Nat
  checkin_comment : String
  badges : List Badge
deriving DecidableEq

/-- Metadata of an Untappd API response: `data['meta']`. -/
structure MetaInfo where
  code : Nat
  error_type : String
deriving DecidableEq

/-- Payload of an Untappd API response: `data['response']['checkins']`. -/
structure CheckinsPayload where
  count : Nat
  items : List Checkin
deriving DecidableEq

/-- Parsed JSON of an Untappd API response (`request.json()`). -/
structure ApiResponse where
  meta : MetaInfo
  response_checkins : CheckinsPayload
deriving DecidableEq

/-- Python exceptions split by whether `except Exception` catches them:
`runtimeError` models `Exception`-derived values (`IndexError`,
`RuntimeError`), `systemExit` models `SystemExit` raised by
`sys.exit(msg)`. -/
inductive Exc where
  | runtimeError (msg : String)
  | systemExit (msg : String)
deriving DecidableEq

/-- Translation of `fetch_untappd_activity` (src/slappd.py lines 80-98).
The URL format string at lines 82-83 has six positional fields but only
five arguments are supplied at lines 84-89 (the `UNTAPPD_API_BASE`
constant of line 45 is never used), so `str.format` raises
`IndexError: Replacement index 5 out of range for positional args tuple`
before the `try` at line 90: no request is ever issued, and the timeout
and connection-error handlers below the format call are dead code.
`IndexError` is `Exception`-derived, hence a `runtimeError`. -/
def fetch_untappd_activity (userid : String) (last_checkin : Option Nat) :
    Except Exc ApiResponse :=
  .error (.runtimeError "Replacement index 5 out of range for positional args tuple")

/-- Auxiliary scanner for `strip_html`: `none` means outside a tag, and
`some pending` holds the characters consumed since the opening `<`
(in reverse) which are emitted verbatim if the input ends with no `>`. -/
def stripHtmlAux : Option (List Char) → List Char → List Char
  | none, [] => []
  | some pending, [] => pending.reverse
  | none, c :: rest =>
      if c = '<' then stripHtmlAux (some [c]) rest else c :: stripHtmlAux none rest
  | some pending, c :: rest =>
      if c = '>' then stripHtmlAux none rest else stripHtmlAux (some (c :: pending)) rest

/-- Translation of `strip_html` (src/slappd.py lines 130-132):
`re.sub` with the pattern matching a literal `<`, then lazily any
characters other than `>`, then `>`; every such segment is deleted and a
`<` never followed by `>` is kept, which `stripHtmlAux` mirrors. -/
def strip_html (s : String) : String :=
  String.mk (stripHtmlAux none s.toList)

/-- Slack attachment object built in the badge branch of `slack_message`. -/
structure Attachment where
  title : Option String
  text : String
  thumb_url : String
deriving DecidableEq

/-- Slack webhook payload: the badge branch sends a one-element
`attachments` array (modelled as the single attachment) plus icon and
username, the plain branch sends icon, text and username. -/
inductive Payload where
  | withAttachment (att : Attachment) (icon_url : String) (username : String)
  | plain (icon_url : String) (text : String) (username : String)
deriving DecidableEq

/-- Translation of the payload construction in `slack_message`
(src/slappd.py lines 101-123): when `thumb` is set a badge payload with
`strip_html` applied to the text is built, otherwise a plain payload with
the text unmodified. -/
def slack_message (text icon : String) (title : Option String) (thumb : Option String) : Payload :=
  match thumb with
  | some th => .withAttachment ⟨title, strip_html text, th⟩ icon "Untappd"
  | none => .plain icon text "Untappd"

/-- Outcome of the `requests.post` call inside `slack_message`. -/
inductive PostOutcome where
  | ok
  | requestException
deriving DecidableEq

/-- Translation of the delivery part of `slack_message`
(src/slappd.py lines 124-127): a `RequestException` from the post is
answered by `sys.exit` with an error message. -/
def slack_message_send : PostOutcome → Except Exc Unit
  | .ok => .ok ()
  | .requestException =>
      .error (.systemExit "Error: There was an error connecting to the Slack API")

/-- Consecutive `slack_message` deliveries of one cycle under Python
exception propagation: returns how many posts were attempted and the
exception that aborted the sequence, if any. A failing post raises
`SystemExit`, so no later post is attempted. -/
def send_all : List PostOutcome → Nat × Option Exc
  | [] => (0, none)
  | o :: rest =>
      match slack_message_send o with
      | .error e => (1, some e)
      | .ok _ =>
          let r := send_all rest
          (r.1 + 1, r.2)

/-- The `LAST_CHECKIN` dict: an association list from user id to the
numeric value of the stored cursor, with first-match lookup. -/
abbrev CursorMap := List (String × Nat)

/-- Dict lookup, `LAST_CHECKIN.get(userid, 0)` with 0-for-absent modelled
as `none`. -/
def mapGet (m : CursorMap) (u : String) : Option Nat :=
  match m with
  | [] => none
  | (k, v) :: rest => if k = u then some v else mapGet rest u

/-- Dict assignment `LAST_CHECKIN[userid] = v`, modelled as a shadowing
cons. -/
def mapSet (m : CursorMap) (u : String) (v : Nat) : CursorMap :=
  (u, v) :: m

/-- Translation of
`max(data['response']['checkins']['items'], key=itemgetter('checkin_id'))['checkin_id']`
(src/slappd.py lines 141-142) for the non-empty batches on which the code
evaluates it. -/
def maxCheckinId (l : List Checkin) : Nat :=
  l.foldl (fun a c => max a c.checkin_id) 0

/-- Icon choice in the loop body (src/slappd.py lines 181-185): the beer
label when non-empty, else the user avatar. -/
def checkin_icon (c : Checkin) : String :=
  if c.beer.beer_label.length ≠ 0 then c.beer.beer_label else c.user.user_avatar

/-- Badge announcement title (src/slappd.py lines 190-193). -/
def badge_title (c : Checkin) (b : Badge) : String :=
  c.user.first_name ++ " " ++ c.user.last_name ++ " earned the " ++ b.badge_name ++ " badge!"

/-- Text appended to the per-cycle buffer for one check-in
(src/slappd.py lines 150-179): the drinking line, the optional venue
suffix, the optional rating suffix, a newline, and the optional quoted
comment line. -/
def checkin_text (c : Checkin) : String :=
  (":beer: *<https://untappd.com/user/" ++ c.user.user_name ++ "|" ++
      c.user.first_name ++ " " ++ c.user.last_name ++
      ">* is drinking a *<https://untappd.com/b/" ++
      c.brewery.brewery_slug ++ "/" ++ toString c.beer.bid ++ "|" ++ c.beer.beer_name ++
      ">* by *<https://untappd.com/w/" ++ c.brewery.brewery_slug ++ "/" ++
      toString c.brewery.brewery_id ++ "|" ++ c.brewery.brewery_name ++ ">*")
  ++ (match c.venue with
      | some v => " at *<https://untappd.com/v/" ++ v.venue_slug ++ "/" ++
          toString v.venue_id ++ "|" ++ v.venue_name ++ ">*"
      | none => "")
  ++ (if c.rating_score ≠ 0 then " (" ++ toString c.rating_score ++ "/5)" else "")
  ++ "\n"
  ++ (if c.checkin_comment.length ≠ 0 then ">\"" ++ c.checkin_comment ++ "\"\n" else "")

/-- Translation of the notification loop of `process_user_checkins`
(src/slappd.py lines 147-198): `t` is the accumulated `text` buffer,
which is extended (never reset) before each `slack_message(text, icon)`
call; after each check-in message, one badge message per badge of that
check-in is sent. Returns the payloads in send order, assuming every
delivery succeeds. -/
def checkin_loop (t : String) : List Checkin → List Payload
  | [] => []
  | c :: rest =>
      slack_message (t ++ checkin_text c) (checkin_icon c) none none
        :: (c.badges.map (fun b =>
              slack_message b.badge_description b.badge_image_sm
                (some (badge_title c b)) (some b.badge_image_md)))
          ++ checkin_loop (t ++ checkin_text c) rest

instance exceptDecEq {ε α : Type} [DecidableEq ε] [DecidableEq α] :
    DecidableEq (Except ε α) := fun a b =>
  match a, b with
  | .ok x, .ok y => if h : x = y then .isTrue (by rw [h]) else .isFalse (by simp [h])
  | .error x, .error y => if h : x = y then .isTrue (by rw [h]) else .isFalse (by simp [h])
  | .ok _, .error _ => .isFalse (by simp)
  | .error _, .ok _ => .isFalse (by simp)

/-- Result of one per-user cycle: the cursor map after the cycle, the
payloads sent, and whether the cycle returned or raised. -/
structure CycleOutcome where
  cursors : CursorMap
  sent : List Payload
  result : Except Exc Unit
deriving DecidableEq

/-- Translation of `process_user_checkins` (src/slappd.py lines 135-203):
read the previous cursor (absent modelled as `none`) and fetch. Because
the fetch raises `IndexError` on every call, the error arm is the only
reachable one; the remaining branches (on a 200 response update the
cursor to the maximal id when the reported count is non-zero, return
early when there was no previous cursor, otherwise run the notification
loop over all fetched items; raise `RuntimeError` on a non-200 response,
as a rate limit when `error_type` is `invalid_limit`) are dead code in
the source, translated here all the same. -/
def process_user_checkins (m : CursorMap) (u : String) : CycleOutcome :=
  let prev := mapGet m u
  match fetch_untappd_activity u prev with
  | .error e => ⟨m, [], .error e⟩
  | .ok data =>
      if data.meta.code = 200 then
        if data.response_checkins.count ≠ 0 then
          let m' := mapSet m u (maxCheckinId data.response_checkins.items)
          if prev.isNone then ⟨m', [], .ok ()⟩
          else ⟨m', checkin_loop "" data.response_checkins.items, .ok ()⟩
        else ⟨m, checkin_loop "" data.response_checkins.items, .ok ()⟩
      else if data.meta.error_type = "invalid_limit" then
        ⟨m, [], .error (.runtimeError "Error: Untappd API rate limit reached, try again later")⟩
      else
        ⟨m, [], .error (.runtimeError
          ("Error: Untappd API returned http code " ++ toString data.meta.code))⟩

/-- Translation of `main` (src/slappd.py lines 207-210): process every
configured user in order; an exception raised for one user propagates and
the remaining users are not processed in this cycle. -/
def main_loop (m : CursorMap) : List String → CycleOutcome
  | [] => ⟨m, [], .ok ()⟩
  | u :: rest =>
      let r := process_user_checkins m u
      match r.result with
      | .error e => ⟨r.cursors, r.sent, .error e⟩
      | .ok _ =>
          let r' := main_loop r.cursors rest
          ⟨r'.cursors, r.sent ++ r'.sent, r'.result⟩

/-- Translation of `scheduled_job.run` (src/slappd.py lines 65-72): log,
run the callback, catch `except Exception` and log the crash; a
`SystemExit` is not `Exception`-derived and propagates. Returns the log
lines (without timestamps) and the escaping exception, if any. -/
def scheduled_job_run (callbackResult : Except Exc Unit) : List String × Except Exc Unit :=
  match callbackResult with
  | .ok _ => (["starting", "finished successfully"], .ok ())
  | .error (.runtimeError m) => (["starting", "CRASHED: " ++ m], .ok ())
  | .error (.systemExit m) => (["starting"], .error (.systemExit m))

/-- Projection selecting plain (check-in) payloads and their text. -/
def plainText : Payload → Option String
  | .plain _ t _ => some t
  | .withAttachment _ _ _ => none

/-- Accumulated text buffers in order: entry `k` is
`t ++ checkin_text l[0] ++ ... ++ checkin_text l[k]`, the body of the
`k`-th plain message of `checkin_loop t l`. -/
def prefixTexts (t : String) : List Checkin → List String
  | [] => []
  | c :: rest => (t ++ checkin_text c) :: prefixTexts (t ++ checkin_text c) rest

/-- Iterated cycles: runs one per-user cycle per listed user id, threading
the cursor map through, and returns the final map. -/
def runCycles : CursorMap → List String → CursorMap
  | m, [] => m
  | m, u :: rest => runCycles (process_user_checkins m u).cursors rest

/-- Sample fixture: a user record. -/
def sampleUser : UserInfo := ⟨"alice", "Alice", "Ale", "avatar.png"⟩

/-- Sample fixture: a beer record. -/
def sampleBeer : Beer := ⟨42, "Test IPA", "label.png"⟩

/-- Sample fixture: a brewery record. -/
def sampleBrewery : Brewery := ⟨7, "Test Brewing", "test-brewing"⟩

/-- Sample fixture: a plain check-in with the given id. -/
def mkCheckin (i : Nat) : Checkin :=
  ⟨i, sampleUser, sampleBeer, sampleBrewery, none, 0, "", []⟩

/-- Sample fixture: a check-in whose comment carries markup. -/
def commentCheckin : Checkin :=
  ⟨11, sampleUser, sampleBeer, sampleBrewery, none, 0, "<b>nice</b> pour", []⟩

theorem filterMap_plainText_badges (c : Checkin) (bs : List Badge) :
    (bs.map (fun b => slack_message b.badge_description b.badge_image_sm
        (some (badge_title c b)) (some b.badge_image_md))).filterMap plainText = [] := by
  induction bs with
  | nil => rfl
  | cons b rest ih =>
      rw [List.map_cons, List.filterMap_cons]
      simp only [slack_message, plainText]
      exact ih

theorem checkin_loop_plainText (l : List Checkin) :
    ∀ t : String, (checkin_loop t l).filterMap plainText = prefixTexts t l := by
  induction l with
  | nil => intro t; rfl
  | cons c rest ih =>
      intro t
      show ((slack_message (t ++ checkin_text c) (checkin_icon c) none none
          :: (c.badges.map (fun b => slack_message b.badge_description b.badge_image_sm
                (some (badge_title c b)) (some b.badge_image_md))))
            ++ checkin_loop (t ++ checkin_text c) rest).filterMap plainText
        = (t ++ checkin_text c) :: prefixTexts (t ++ checkin_text c) rest
      rw [List.cons_append, List.filterMap_cons, List.filterMap_append,
        filterMap_plainText_badges, ih]
      simp [slack_message, plainText]

theorem prefixTexts_getD_split (l : List Checkin) :
    ∀ (t : String) (k : Nat), k < l.length →
      ∃ s, (prefixTexts t l).getD k "" = t ++ s := by
  induction l with
  | nil => intro t k hk; exact absurd hk (Nat.not_lt_zero k)
  | cons c rest ih =>
      intro t k hk
      cases k with
      | zero => exact ⟨checkin_text c, rfl⟩
      | succ k' =>
          obtain ⟨s, hs⟩ := ih (t ++ checkin_text c) k' (Nat.lt_of_succ_lt_succ hk)
          refine ⟨checkin_text c ++ s, ?_⟩
          rw [prefixTexts, List.getD_cons_succ, hs, String.append_assoc]

theorem prefixTexts_contains (l : List Checkin) :
    ∀ (t : String) (j k : Nat) (hj : j < l.length), j ≤ k → k < l.length →
      ∃ s₁ s₂, (prefixTexts t l).getD k "" = s₁ ++ checkin_text (l.get ⟨j, hj⟩) ++ s₂ := by
  induction l with
  | nil => intro t j k hj _ _; exact absurd hj (Nat.not_lt_zero j)
  | cons c rest ih =>
      intro t j k hj hjk hk
      cases j with
      | zero =>
          cases k with
          | zero =>
              refine ⟨t, "", ?_⟩
              show (prefixTexts t (c :: rest)).getD 0 "" = t ++ checkin_text c ++ ""
              rw [prefixTexts, List.getD_cons_zero, String.append_empty]
          | succ k' =>
              obtain ⟨s, hs⟩ :=
                prefixTexts_getD_split rest (t ++ checkin_text c) k' (Nat.lt_of_succ_lt_succ hk)
              refine ⟨t, s, ?_⟩
              show (prefixTexts t (c :: rest)).getD (k' + 1) "" = t ++ checkin_text c ++ s
              rw [prefixTexts, List.getD_cons_succ]
              exact hs
      | succ j' =>
          cases k with
          | zero => exact absurd hjk (Nat.not_succ_le_zero j')
          | succ k' =>
              obtain ⟨s₁, s₂, hs⟩ := ih (t ++ checkin_text c) j' k'
                (Nat.lt_of_succ_lt_succ hj) (Nat.le_of_succ_le_succ hjk)
                (Nat.lt_of_succ_lt_succ hk)
              refine ⟨s₁, s₂, ?_⟩
              show (prefixTexts t (c :: rest)).getD (k' + 1) ""
                = s₁ ++ checkin_text (rest.get ⟨j', Nat.lt_of_succ_lt_succ hj⟩) ++ s₂
              rw [prefixTexts, List.getD_cons_succ]
              exact hs

/-- C1 (code bug): the transient-failure classification is unreachable.
Every fetch raises `IndexError` at the format call, before the request and
before the timeout, connection-error and rate-limit handlers; that
exception aborts the whole per-user loop, so with two configured users the
cycle ends at the first user and the second is never processed (its cursor
is never consulted or seeded), contrary to the claimed
proceed-to-next-user behaviour. -/
theorem cycle_crashes_before_any_user_processed :
    main_loop [] ["alice", "bob"]
      = ⟨[], [], .error (.runtimeError
          "Replacement index 5 out of range for positional args tuple")⟩ ∧
    mapGet (main_loop [] ["alice", "bob"]).cursors "bob" = none :=
  ⟨rfl, rfl⟩

/-- C2 (code bug): with a cursor present the cycle is meant to notify the
newly fetched check-ins and advance the cursor to the maximal id, but the
fetch raises `IndexError` before issuing any request: the cursor stays at
its old value and zero notifications are emitted, never the per-new-item
notifications the claim describes. -/
theorem incremental_cycle_crashes_in_fetch :
    mapGet [("alice", 100)] "alice" = some 100 ∧
    process_user_checkins [("alice", 100)] "alice"
      = ⟨[("alice", 100)], [], .error (.runtimeError
          "Replacement index 5 out of range for positional args tuple")⟩ :=
  ⟨by decide, rfl⟩

/-- C3 (code bug): on a first-run cycle (no stored cursor) the fetch
raises `IndexError` from the malformed format string before any request,
so no batch ever arrives, no cursor is recorded and nothing is emitted;
the spec-intended seeding never happens. -/
theorem first_run_crashes_in_fetch :
    mapGet [] "alice" = none ∧
    process_user_checkins [] "alice"
      = ⟨[], [], .error (.runtimeError
          "Replacement index 5 out of range for positional args tuple")⟩ :=
  ⟨rfl, rfl⟩

/-- C4: a cursor value once set never decreases across any sequence of
per-user cycles. This holds degenerately: every cycle crashes in the fetch
before the single cursor write at src/slappd.py line 141, so the cursor
map is never modified and any stored value persists unchanged. -/
theorem cursor_never_decreases (m : CursorMap) (steps : List String) (u : String) (x : Nat)
    (hx : mapGet m u = some x) :
    ∃ y, mapGet (runCycles m steps) u = some y ∧ x ≤ y := by
  induction steps generalizing m with
  | nil => exact ⟨x, hx, Nat.le_refl x⟩
  | cons s rest ih => exact ih m hx

/-- Witness for C4 on a concrete two-cycle trace. -/
theorem cursor_never_decreases_witness :
    mapGet [("alice", 5)] "alice" = some 5 ∧
    ∃ y, mapGet (runCycles [("alice", 5)] ["alice", "bob"]) "alice" = some y ∧ 5 ≤ y :=
  ⟨by decide, cursor_never_decreases [("alice", 5)] ["alice", "bob"] "alice" 5 (by decide)⟩

set_option maxRecDepth 4096 in
/-- Counterexample to C5: the notification loop announces a check-in whose
comment is the markup-bearing string through the plain branch of
`slack_message`, which transmits the accumulated body unmodified (no
`strip_html`); stripping would have changed the body, so markup is not
stripped from plain check-in announcements and the comment keeps its
`<b>` tags in the transmitted text. -/
theorem plain_message_keeps_markup_cex :
    commentCheckin.checkin_comment = "<b>nice</b> pour" ∧
    checkin_loop "" [commentCheckin]
      = [Payload.plain (checkin_icon commentCheckin)
          ("" ++ checkin_text commentCheckin) "Untappd"] ∧
    slack_message ("" ++ checkin_text commentCheckin) (checkin_icon commentCheckin) none none
      = Payload.plain (checkin_icon commentCheckin)
          ("" ++ checkin_text commentCheckin) "Untappd" ∧
    strip_html ("" ++ checkin_text commentCheckin) ≠ "" ++ checkin_text commentCheckin := by
  refine ⟨rfl, rfl, rfl, by decide⟩

/-- C5 amended: markup tags are stripped only in the badge branch of
`slack_message` (thumb set), where the transmitted attachment text is
`strip_html` of the input and the markup example renders stripped; the
plain check-in branch transmits its text argument unmodified. -/
theorem strip_html_only_badge_branch (text icon : String) (title : Option String) (th : String) :
    slack_message text icon title (some th)
      = .withAttachment ⟨title, strip_html text, th⟩ icon "Untappd" ∧
    slack_message text icon title none = .plain icon text "Untappd" ∧
    strip_html "<b>nice</b> pour" = "nice pour" :=
  ⟨rfl, rfl, by decide⟩

/-- C6: whatever the per-user loop does, the whole-cycle wrapper returns
normally, so the scheduler reaches its next invocation. The only failure
the loop ever raises is the `Exception`-derived `IndexError` from the
fetch format bug, raised at the first user of any non-empty cycle; the
wrapper catches it and logs the crash. -/
theorem wrapper_catches_cycle_failures (m : CursorMap) (users : List String) :
    (scheduled_job_run (main_loop m users).result).2 = .ok () ∧
    ∀ (u : String) (rest : List String),
      main_loop m (u :: rest)
        = ⟨m, [], .error (.runtimeError
            "Replacement index 5 out of range for positional args tuple")⟩ ∧
      scheduled_job_run (main_loop m (u :: rest)).result
        = (["starting",
            "CRASHED: Replacement index 5 out of range for positional args tuple"], .ok ()) := by
  refine ⟨?_, fun u rest => ⟨rfl, rfl⟩⟩
  cases users with
  | nil => rfl
  | cons u rest => rfl

/-- Counterexample to C7: a failing delivery raises SystemExit at once;
with a second notification queued, only one attempt is made and the
sequence ends with the exit signal, refuting logged-and-swallowed
continuation. -/
theorem failed_delivery_aborts_cex :
    slack_message_send .requestException
      = .error (.systemExit "Error: There was an error connecting to the Slack API") ∧
    send_all [.requestException, .ok]
      = (1, some (.systemExit "Error: There was an error connecting to the Slack API")) :=
  ⟨rfl, rfl⟩

/-- C7 amended: a delivery failure calls sys.exit: the SystemExit aborts
the remaining deliveries of the cycle (exactly one attempt is made,
whatever is queued behind it) and signals process exit rather than being
logged and swallowed. -/
theorem failed_delivery_raises_exit (rest : List PostOutcome) :
    send_all (.requestException :: rest)
      = (1, some (.systemExit "Error: There was an error connecting to the Slack API")) := rfl

/-- C8: in the notification loop, the check-in message (sent with the
accumulated buffer extended by this check-in) is immediately followed by
exactly one badge message per badge of this check-in, carrying the
earned-badge title, the stripped badge description, the small image as
icon and the medium image as thumbnail, and only then by the messages of
the remaining check-ins. -/
theorem badge_messages_follow_their_checkin (t : String) (c : Checkin) (rest : List Checkin) :
    checkin_loop t (c :: rest) =
      (slack_message (t ++ checkin_text c) (checkin_icon c) none none
        :: c.badges.map (fun b =>
            Payload.withAttachment
              ⟨some (c.user.first_name ++ " " ++ c.user.last_name ++
                  " earned the " ++ b.badge_name ++ " badge!"),
                strip_html b.badge_description, b.badge_image_md⟩
              b.badge_image_sm "Untappd"))
        ++ checkin_loop (t ++ checkin_text c) rest := rfl

/-- C9: the per-cycle text buffer accumulates and is never reset, so the
body of the k-th check-in message of the loop contains the full formatted
text of the j-th check-in for every j ≤ k. -/
theorem later_messages_repeat_earlier_text (t : String) (l : List Checkin)
    (j k : Nat) (hjk : j ≤ k) (hk : k < l.length) :
    ∃ s₁ s₂, ((checkin_loop t l).filterMap plainText).getD k ""
      = s₁ ++ checkin_text (l.get ⟨j, Nat.lt_of_le_of_lt hjk hk⟩) ++ s₂ := by
  rw [checkin_loop_plainText]
  exact prefixTexts_contains l t j k (Nat.lt_of_le_of_lt hjk hk) hjk hk

/-- Witness for C9: in a two-item batch the second message body contains
the first item's full text. -/
theorem later_messages_repeat_earlier_text_witness :
    0 ≤ 1 ∧ 1 < [mkCheckin 101, mkCheckin 103].length ∧
    ∃ s₁ s₂, ((checkin_loop "" [mkCheckin 101, mkCheckin 103]).filterMap plainText).getD 1 ""
      = s₁ ++ checkin_text ([mkCheckin 101, mkCheckin 103].get ⟨0, by decide⟩) ++ s₂ :=
  ⟨Nat.zero_le 1, by decide,
    later_messages_repeat_earlier_text "" [mkCheckin 101, mkCheckin 103] 0 1
      (Nat.zero_le 1) (by decide)⟩

/-- C10: a per-user cycle for user `u` leaves the cursor entry of every
other user unchanged, whatever the outcome of the cycle. This holds
degenerately but unconditionally: the fetch crash means the one reachable
outcome leaves the whole cursor map untouched, so in particular every
other entry is unchanged. -/
theorem cycle_frames_other_users (m : CursorMap) (u v : String) (h : v ≠ u) :
    mapGet (process_user_checkins m u).cursors v = mapGet m v := rfl

/-- Witness for C10. -/
theorem cycle_frames_other_users_witness :
    ("bob" : String) ≠ "alice" ∧
    mapGet (process_user_checkins [("bob", 3)] "alice").cursors "bob"
      = mapGet [("bob", 3)] "bob" :=
  ⟨by decide, cycle_frames_other_users [("bob", 3)] "alice" "bob" (by decide)⟩
